import Mathlib

/-!
Verification of the moltworker core: a shallow embedding, in Lean 4, of

  * `src/sandbox.ts` — the Durable Object reset retry wrapper
    (`withSandboxResetRetry`, `isDurableObjectResetError`);
  * `src/gateway/utils.ts` — the process poll loop (`waitForProcess`);
  * `src/sandbox-alarm.ts` — the CLI outcome evaluator (`evaluateCliOutcome`,
    `formatCliFailureMessage`) and the guarded `Sandbox.alarm` override;
  * the container startup script — the boot-time restore phase
    (`local_state_exists`, `restore_from_r2`), the sync step (`sync_once`)
    and the shutdown drain (`run_shutdown_sync_with_timeout`,
    `shutdown_handler`).

JavaScript strings are modelled as Lean `String`; the JS string methods
`includes`, `toLowerCase` and `trim` are re-implemented structurally over
`List Char` so that every definition evaluates inside the kernel.
External effects (sandbox operations, rclone invocations, the clock) enter
each function as explicit arguments; the operations a run would issue are
returned as lists so that theorems can count them.
-/

namespace Moltworker

/-! ## JS string primitives -/

/-- Check that `needle` is a prefix of the second list, character by character. -/
def startsWithChars : List Char → List Char → Bool
  | [], _ => true
  | _ :: _, [] => false
  | a :: as, b :: bs => a == b && startsWithChars as bs

/-- Check that `needle` occurs contiguously somewhere in the haystack. -/
def hasInfixChars (needle : List Char) : List Char → Bool
  | [] => needle.isEmpty
  | c :: t => startsWithChars needle (c :: t) || hasInfixChars needle t

/-- Model of the JS `s.includes(sub)` substring test. -/
def jsIncludes (s sub : String) : Bool := hasInfixChars sub.data s.data

/-- Model of the JS `s.toLowerCase()` case fold. -/
def jsToLower (s : String) : String := ⟨s.data.map Char.toLower⟩

/-- Drop leading and trailing whitespace from a character list. -/
def trimChars (l : List Char) : List Char :=
  ((l.dropWhile Char.isWhitespace).reverse.dropWhile Char.isWhitespace).reverse

/-- Model of the JS `s.trim()`. -/
def jsTrim (s : String) : String := ⟨trimChars s.data⟩

/-- Substring containment as a proposition: `sub` occurs contiguously in `s`. -/
def ContainsSub (s sub : String) : Prop := ∃ pre post, s = pre ++ sub ++ post

theorem string_append_assoc (a b c : String) : a ++ b ++ c = a ++ (b ++ c) := by
  apply String.ext
  simp [String.data_append]

/-! ## HandleSupervisor: `withSandboxResetRetry` (src/sandbox.ts)

A thrown JS value is either a real `Error` object carrying a message, or an
arbitrary non-`Error` value (`instanceof Error` fails on it). -/

inductive JsError where
  | errObj (message : String)
  | nonError (value : String)
deriving DecidableEq, Repr

/-- The two message fragments that identify a Durable Object reset
(src/sandbox.ts lines 7-10). -/
def DURABLE_OBJECT_RESET_ERROR_FRAGMENTS : List String :=
  ["Internal error in Durable Object storage caused object to be reset",
   "Durable Object reset because its code was updated"]

/-- Classifier from src/sandbox.ts lines 26-32: a thrown value is a reset error
iff it is an `Error` instance whose message includes one of the fragments. -/
def isDurableObjectResetError : JsError → Bool
  | JsError.errObj m => DURABLE_OBJECT_RESET_ERROR_FRAGMENTS.any fun f => jsIncludes m f
  | JsError.nonError _ => false

/-- Outcome of a `withSandboxResetRetry` run: the value returned or error
thrown, together with how many times the operation was invoked. -/
structure RetryRun (T : Type) where
  result : Except JsError T
  calls : Nat
deriving Repr

/-- Fallthrough after the loop (src/sandbox.ts lines 67-71): rethrow the last
raw failure when it was an `Error`, otherwise synthesize one.  Unreachable
whenever `attempts >= 1`, which the clamp guarantees. -/
def fallthroughError : Option JsError → JsError
  | some (JsError.errObj m) => JsError.errObj m
  | _ => JsError.errObj "Sandbox operation failed without an error"

/-- The retry loop of src/sandbox.ts lines 49-65.  `op gen attempt` is the
operation applied to the `gen`-th sandbox handle (handle 0 is the one acquired
before the loop; each reacquisition after a reset error increments it) on the
1-based `attempt`.  `fuel` keeps the loop guard `attempt <= attempts` as
structural recursion: it starts at `attempts` and counts the iterations left. -/
def retryGo {T : Type} (op : Nat → Nat → Except JsError T) (attempts : Nat) :
    Nat → Nat → Option JsError → RetryRun T
  | 0, a, lastError => ⟨Except.error (fallthroughError lastError), a - 1⟩
  | fuel + 1, a, _ =>
    match op (a - 1) a with
    | Except.ok v => ⟨Except.ok v, a⟩
    | Except.error e =>
      if isDurableObjectResetError e = false ∨ a = attempts then ⟨Except.error e, a⟩
      else retryGo op attempts fuel (a + 1) (some e)

/-- Model of `withSandboxResetRetry` (src/sandbox.ts lines 40-72): the attempt
count is clamped below by 1 and defaults to 3, then the loop starts at
attempt 1 with the initially acquired handle (generation 0). -/
def withSandboxResetRetry {T : Type} (op : Nat → Nat → Except JsError T)
    (attemptsOpt : Option Nat) : RetryRun T :=
  let attempts := max 1 (attemptsOpt.getD 3)
  retryGo op attempts attempts 1 none

theorem retryGo_spec {T : Type} (op : Nat → Nat → Except JsError T) (attempts : Nat) :
    ∀ fuel a lastError, fuel = attempts + 1 - a → 1 ≤ a → a ≤ attempts →
      (a ≤ (retryGo op attempts fuel a lastError).calls ∧
        (retryGo op attempts fuel a lastError).calls ≤ attempts) ∧
      (∀ i, a ≤ i → i < (retryGo op attempts fuel a lastError).calls →
        ∃ e, op (i - 1) i = Except.error e ∧ isDurableObjectResetError e = true) ∧
      (∀ e, (retryGo op attempts fuel a lastError).result = Except.error e →
        op ((retryGo op attempts fuel a lastError).calls - 1)
          (retryGo op attempts fuel a lastError).calls = Except.error e) ∧
      (∀ v, (retryGo op attempts fuel a lastError).result = Except.ok v →
        op ((retryGo op attempts fuel a lastError).calls - 1)
          (retryGo op attempts fuel a lastError).calls = Except.ok v) := by
  intro fuel
  induction fuel with
  | zero => intro a lastError hfuel h1 hle; omega
  | succ f ih =>
    intro a lastError hfuel h1 hle
    cases hop : op (a - 1) a with
    | ok v =>
      simp only [retryGo, hop]
      refine ⟨⟨Nat.le_refl a, hle⟩, ?_, ?_, ?_⟩
      · intro i hi1 hi2; omega
      · intro e he; exact absurd he (by simp)
      · intro w hw; exact hw
    | error e =>
      by_cases hcond : isDurableObjectResetError e = false ∨ a = attempts
      · simp only [retryGo, hop, if_pos hcond]
        refine ⟨⟨Nat.le_refl a, hle⟩, ?_, ?_, ?_⟩
        · intro i hi1 hi2; omega
        · intro e' he'; exact he'
        · intro w hw; exact absurd hw (by simp)
      · push_neg at hcond
        obtain ⟨hne, hneq⟩ := hcond
        have hreset : isDurableObjectResetError e = true := by
          cases h : isDurableObjectResetError e
          · exact absurd h hne
          · rfl
        have hrec := ih (a + 1) (some e) (by omega) (by omega)
          (by omega)
        have hred : retryGo op attempts (f + 1) a lastError =
            retryGo op attempts f (a + 1) (some e) := by
          simp only [retryGo, hop]
          rw [if_neg (not_or.mpr ⟨hne, hneq⟩)]
        rw [hred]
        obtain ⟨⟨hb1, hb2⟩, hretr, herr, hok⟩ := hrec
        refine ⟨⟨by omega, hb2⟩, ?_, herr, hok⟩
        intro i hi1 hi2
        rcases eq_or_lt_of_le hi1 with heq | hlt2
        · subst heq
          exact ⟨e, hop, hreset⟩
        · exact hretr i (by omega) hi2

/-- C1: for every attempt count N >= 1 and every operation,
`withSandboxResetRetry` invokes the operation at most N times, hence performs
at most N - 1 retries; every non-final invocation failed with an error
classified as handle invalidation by `isDurableObjectResetError` (so it
retries only on Durable Object resets), and attempt `i` runs against sandbox
handle generation `i - 1`, i.e. a freshly reacquired handle after each reset;
any error the wrapper throws is exactly the error the last invocation threw,
so an unrelated or final error propagates unchanged and is never replaced by a
synthesized error. -/
theorem C1_withSandboxResetRetry_retry_discipline {T : Type}
    (op : Nat → Nat → Except JsError T) (N : Nat) (hN : 1 ≤ N) :
    ((withSandboxResetRetry op (some N)).calls ≤ N ∧
      (withSandboxResetRetry op (some N)).calls - 1 ≤ N - 1) ∧
    (∀ i, 1 ≤ i → i < (withSandboxResetRetry op (some N)).calls →
      ∃ e, op (i - 1) i = Except.error e ∧ isDurableObjectResetError e = true) ∧
    (∀ e, (withSandboxResetRetry op (some N)).result = Except.error e →
      op ((withSandboxResetRetry op (some N)).calls - 1)
        (withSandboxResetRetry op (some N)).calls = Except.error e) := by
  have hmax : max 1 N = N := Nat.max_eq_right hN
  have hw : withSandboxResetRetry op (some N) = retryGo op N N 1 none := by
    simp [withSandboxResetRetry, hmax]
  rw [hw]
  obtain ⟨⟨hb1, hb2⟩, hretr, herr, hok⟩ :=
    retryGo_spec op N N 1 none (by omega) (Nat.le_refl 1) hN
  exact ⟨⟨hb2, by omega⟩, hretr, herr⟩

/-- Operation used to witness C1: the first attempt throws a Durable Object
reset error, the second attempt (on the reacquired handle) succeeds —
the spec scenario with attempts = 3 and one reacquisition. -/
def c1ExampleOp : Nat → Nat → Except JsError Nat := fun _ attempt =>
  if attempt = 1 then
    Except.error
      (JsError.errObj "Internal error in Durable Object storage caused object to be reset")
  else Except.ok 7

/-- Witness for C1 at N = 3 and a concrete operation. -/
theorem C1_witness :
    1 ≤ 3 ∧
    (((withSandboxResetRetry c1ExampleOp (some 3)).calls ≤ 3 ∧
      (withSandboxResetRetry c1ExampleOp (some 3)).calls - 1 ≤ 3 - 1) ∧
    (∀ i, 1 ≤ i → i < (withSandboxResetRetry c1ExampleOp (some 3)).calls →
      ∃ e, c1ExampleOp (i - 1) i = Except.error e ∧ isDurableObjectResetError e = true) ∧
    (∀ e, (withSandboxResetRetry c1ExampleOp (some 3)).result = Except.error e →
      c1ExampleOp ((withSandboxResetRetry c1ExampleOp (some 3)).calls - 1)
        (withSandboxResetRetry c1ExampleOp (some 3)).calls = Except.error e)) :=
  ⟨by decide, C1_withSandboxResetRetry_retry_discipline c1ExampleOp 3 (by decide)⟩

theorem c1ExampleOp_run_evaluates :
    (withSandboxResetRetry c1ExampleOp (some 3)).result = Except.ok 7 ∧
      (withSandboxResetRetry c1ExampleOp (some 3)).calls = 2 :=
  ⟨rfl, rfl⟩

/-! ## ProcessLifecycle: `waitForProcess` (src/gateway/utils.ts)

The process is modelled by the sequence of statuses its live queries return:
`statusAt q` is the status delivered by the q-th query (query 0 happens before
the loop; the loop issues one further query per iteration).  This mirrors the
source, which refreshes `currentStatus` through `proc.getStatus()` on every
iteration instead of trusting the `proc.status` snapshot. -/

/-- Status guard from src/gateway/utils.ts line 17. -/
def isInProgress (status : String) : Bool := status == "running" || status == "starting"

/-- Ceiling division on naturals: `Math.ceil(timeoutMs / pollIntervalMs)` for
positive integral arguments. -/
def ceilDiv (t p : Nat) : Nat := (t + p - 1) / p

/-- Result of the poll loop: the last observed status, the number of loop
iterations performed (the `attempts` counter) and every status value that was
compared against the in-progress set, in order. -/
structure WaitRun where
  final : String
  attempts : Nat
  queried : List String
deriving Repr

/-- The poll loop of src/gateway/utils.ts lines 21-27.  `fuel` carries the
loop guard `attempts < maxAttempts` structurally: it starts at `maxAttempts`
and counts the iterations left, so `fuel = 0` iff `attempts = maxAttempts`. -/
def wfpGo (statusAt : Nat → String) : Nat → Nat → String → List String → WaitRun
  | 0, attempts, current, acc => ⟨current, attempts, acc⟩
  | fuel + 1, attempts, current, acc =>
    if isInProgress current then
      wfpGo statusAt fuel (attempts + 1) (statusAt (attempts + 1))
        (acc ++ [statusAt (attempts + 1)])
    else ⟨current, attempts, acc⟩

/-- The statuses `statusAt start, …, statusAt (start + count - 1)` in order. -/
def statusSeq (statusAt : Nat → String) : Nat → Nat → List String
  | _, 0 => []
  | s, c + 1 => statusAt s :: statusSeq statusAt (s + 1) c

/-- Timeout error message from src/gateway/utils.ts lines 31-33. -/
def timeoutMessage (timeoutMs : Nat) (status : String) (attempts : Nat) : String :=
  "Process did not complete within " ++ toString timeoutMs ++ "ms (status: " ++
    status ++ ", attempts: " ++ toString attempts ++ ")"

/-- Run the poll loop as `waitForProcess` does: query once before the loop,
then poll up to `ceilDiv timeoutMs pollIntervalMs` times. -/
def waitForProcessRun (statusAt : Nat → String) (timeoutMs pollIntervalMs : Nat) : WaitRun :=
  wfpGo statusAt (ceilDiv timeoutMs pollIntervalMs) 0 (statusAt 0) [statusAt 0]

/-- Model of `waitForProcess` (src/gateway/utils.ts lines 12-36): returns the
final status, or throws the timeout message when the process is still in
progress after the poll budget is spent. -/
def waitForProcess (statusAt : Nat → String) (timeoutMs pollIntervalMs : Nat) :
    Except String String :=
  if isInProgress (waitForProcessRun statusAt timeoutMs pollIntervalMs).final then
    Except.error (timeoutMessage timeoutMs
      (waitForProcessRun statusAt timeoutMs pollIntervalMs).final
      (waitForProcessRun statusAt timeoutMs pollIntervalMs).attempts)
  else
    Except.ok (waitForProcessRun statusAt timeoutMs pollIntervalMs).final

theorem statusSeq_getElem (statusAt : Nat → String) :
    ∀ c s j, j < c → (statusSeq statusAt s c)[j]? = some (statusAt (s + j)) := by
  intro c
  induction c with
  | zero => intro s j h; omega
  | succ n ih =>
    intro s j h
    cases j with
    | zero => simp [statusSeq]
    | succ m =>
      have h2 := ih (s + 1) m (by omega)
      simp only [statusSeq, List.getElem?_cons_succ]
      rw [h2]
      congr 2
      omega

theorem wfpGo_attempts_ge (statusAt : Nat → String) :
    ∀ fuel a current acc, a ≤ (wfpGo statusAt fuel a current acc).attempts := by
  intro fuel
  induction fuel with
  | zero => intro a current acc; simp [wfpGo]
  | succ f ih =>
    intro a current acc
    by_cases h : isInProgress current
    · simp only [wfpGo, if_pos h]
      exact le_trans (Nat.le_succ a) (ih (a + 1) _ _)
    · simp [wfpGo, if_neg h]

theorem wfpGo_queried (statusAt : Nat → String) :
    ∀ fuel a acc,
      (wfpGo statusAt fuel a (statusAt a) acc).queried =
        acc ++ statusSeq statusAt (a + 1)
          ((wfpGo statusAt fuel a (statusAt a) acc).attempts - a) := by
  intro fuel
  induction fuel with
  | zero => intro a acc; simp [wfpGo, statusSeq]
  | succ f ih =>
    intro a acc
    by_cases h : isInProgress (statusAt a)
    · have hge := wfpGo_attempts_ge statusAt f (a + 1) (statusAt (a + 1))
        (acc ++ [statusAt (a + 1)])
      have := ih (a + 1) (acc ++ [statusAt (a + 1)])
      simp only [wfpGo, if_pos h] at *
      rw [this]
      have hsub : (wfpGo statusAt f (a + 1) (statusAt (a + 1))
          (acc ++ [statusAt (a + 1)])).attempts - a =
          ((wfpGo statusAt f (a + 1) (statusAt (a + 1))
            (acc ++ [statusAt (a + 1)])).attempts - (a + 1)) + 1 := by omega
      rw [hsub]
      simp [statusSeq]
    · simp [wfpGo, if_neg h, statusSeq]

theorem wfpGo_timeout (statusAt : Nat → String) :
    ∀ fuel a acc,
      (∀ i, a ≤ i → i ≤ a + fuel → isInProgress (statusAt i) = true) →
      wfpGo statusAt fuel a (statusAt a) acc =
        ⟨statusAt (a + fuel), a + fuel, acc ++ statusSeq statusAt (a + 1) fuel⟩ := by
  intro fuel
  induction fuel with
  | zero => intro a acc _; simp [wfpGo, statusSeq]
  | succ f ih =>
    intro a acc hall
    have h : isInProgress (statusAt a) = true := hall a (Nat.le_refl a) (by omega)
    simp only [wfpGo, if_pos h]
    have := ih (a + 1) (acc ++ [statusAt (a + 1)])
      (fun i hi1 hi2 => hall i (by omega) (by omega))
    rw [this]
    have h1 : a + 1 + f = a + (f + 1) := by omega
    simp [WaitRun.mk.injEq, h1, statusSeq]

theorem wfpGo_reach (statusAt : Nat → String) :
    ∀ fuel a acc k, a ≤ k → k ≤ a + fuel →
      (∀ i, a ≤ i → i < k → isInProgress (statusAt i) = true) →
      isInProgress (statusAt k) = false →
      wfpGo statusAt fuel a (statusAt a) acc =
        ⟨statusAt k, k, acc ++ statusSeq statusAt (a + 1) (k - a)⟩ := by
  intro fuel
  induction fuel with
  | zero =>
    intro a acc k hak hka _ hterm
    have : k = a := by omega
    subst this
    simp [wfpGo, statusSeq]
  | succ f ih =>
    intro a acc k hak hka hmin hterm
    rcases Nat.eq_or_lt_of_le hak with heq | hlt
    · subst heq
      simp [wfpGo, hterm, statusSeq]
    · have h : isInProgress (statusAt a) = true := hmin a (Nat.le_refl a) hlt
      simp only [wfpGo, if_pos h]
      have := ih (a + 1) (acc ++ [statusAt (a + 1)]) k (by omega) (by omega)
        (fun i hi1 hi2 => hmin i (by omega) hi2) hterm
      rw [this]
      have hsub : k - a = (k - (a + 1)) + 1 := by omega
      simp [WaitRun.mk.injEq, hsub, statusSeq]

theorem timeoutMessage_split (t : Nat) (st : String) (n : Nat) :
    timeoutMessage t st n =
      "Process " ++ ("did not complete within " ++ toString t ++ "ms") ++
        (" (status: " ++ st ++ ", attempts: " ++ toString n ++ ")") := by
  have h1 : ("Process did not complete within " : String).data =
      ("Process " : String).data ++ ("did not complete within " : String).data := by decide
  have h2 : ("ms (status: " : String).data =
      ("ms" : String).data ++ (" (status: " : String).data := by decide
  apply String.ext
  simp [timeoutMessage, String.data_append, h1, h2, List.append_assoc]

theorem timeoutMessage_contains_timeout (t : Nat) (st : String) (n : Nat) :
    ContainsSub (timeoutMessage t st n) ("did not complete within " ++ toString t ++ "ms") :=
  ⟨"Process ", " (status: " ++ st ++ ", attempts: " ++ toString n ++ ")",
    timeoutMessage_split t st n⟩

theorem timeoutMessage_contains_status (t : Nat) (st : String) (n : Nat) :
    ContainsSub (timeoutMessage t st n) st :=
  ⟨"Process did not complete within " ++ toString t ++ "ms (status: ",
   ", attempts: " ++ toString n ++ ")", by
    apply String.ext
    simp [timeoutMessage, String.data_append, List.append_assoc]⟩

theorem timeoutMessage_contains_attempts (t : Nat) (st : String) (n : Nat) :
    ContainsSub (timeoutMessage t st n) (toString n) :=
  ⟨"Process did not complete within " ++ toString t ++ "ms (status: " ++ st ++ ", attempts: ",
   ")", by
    apply String.ext
    simp [timeoutMessage, String.data_append, List.append_assoc]⟩

/-- C2: for every status sequence whose queries reach a value outside
the in-progress set within the poll budget `ceil(timeoutMs/pollIntervalMs)`,
`waitForProcess` returns that first terminal status; for every sequence that
never leaves the in-progress set, it throws after performing exactly
`ceil(timeoutMs/pollIntervalMs)` polls, with an error message containing
"did not complete within <timeoutMs>ms", the last observed status and the
poll count; concretely, `timeoutMs = 5`, `pollIntervalMs = 1` and a constant
"running" status give an attempt count of 5. -/
theorem C2_waitForProcess_timeout_semantics (statusAt : Nat → String)
    (timeoutMs pollIntervalMs : Nat) (hp : 1 ≤ pollIntervalMs) :
    (∀ k, k ≤ ceilDiv timeoutMs pollIntervalMs →
      (∀ i, i < k → isInProgress (statusAt i) = true) →
      isInProgress (statusAt k) = false →
      waitForProcess statusAt timeoutMs pollIntervalMs = Except.ok (statusAt k)) ∧
    ((∀ i, i ≤ ceilDiv timeoutMs pollIntervalMs → isInProgress (statusAt i) = true) →
      waitForProcess statusAt timeoutMs pollIntervalMs =
        Except.error (timeoutMessage timeoutMs
          (statusAt (ceilDiv timeoutMs pollIntervalMs))
          (ceilDiv timeoutMs pollIntervalMs)) ∧
      ContainsSub (timeoutMessage timeoutMs
          (statusAt (ceilDiv timeoutMs pollIntervalMs)) (ceilDiv timeoutMs pollIntervalMs))
        ("did not complete within " ++ toString timeoutMs ++ "ms") ∧
      ContainsSub (timeoutMessage timeoutMs
          (statusAt (ceilDiv timeoutMs pollIntervalMs)) (ceilDiv timeoutMs pollIntervalMs))
        (statusAt (ceilDiv timeoutMs pollIntervalMs)) ∧
      ContainsSub (timeoutMessage timeoutMs
          (statusAt (ceilDiv timeoutMs pollIntervalMs)) (ceilDiv timeoutMs pollIntervalMs))
        (toString (ceilDiv timeoutMs pollIntervalMs))) ∧
    (ceilDiv 5 1 = 5 ∧
      (waitForProcessRun (fun _ => "running") 5 1).attempts = 5 ∧
      waitForProcess (fun _ => "running") 5 1 =
        Except.error "Process did not complete within 5ms (status: running, attempts: 5)") := by
  refine ⟨?_, ?_, ?_⟩
  · intro k hk hmin hterm
    have hrun := wfpGo_reach statusAt (ceilDiv timeoutMs pollIntervalMs) 0 [statusAt 0] k
      (Nat.zero_le k) (by omega) (fun i _ hi2 => hmin i hi2) hterm
    simp only [waitForProcess, waitForProcessRun, hrun, hterm]
    simp
  · intro hall
    have hrun := wfpGo_timeout statusAt (ceilDiv timeoutMs pollIntervalMs) 0 [statusAt 0]
      (fun i _ hi2 => hall i (by omega))
    have hfin : isInProgress (statusAt (ceilDiv timeoutMs pollIntervalMs)) = true :=
      hall _ (Nat.le_refl _)
    refine ⟨?_, timeoutMessage_contains_timeout _ _ _,
      timeoutMessage_contains_status _ _ _, timeoutMessage_contains_attempts _ _ _⟩
    simp only [waitForProcess, waitForProcessRun, hrun]
    simp [hfin]
  · exact ⟨rfl, rfl, rfl⟩

/-- Witness for C2 at a concrete status sequence, timeout and poll interval. -/
theorem C2_witness :
    1 ≤ 1 ∧
    ((∀ k, k ≤ ceilDiv 5 1 →
      (∀ i, i < k → isInProgress ((fun _ : Nat => "running") i) = true) →
      isInProgress ((fun _ : Nat => "running") k) = false →
      waitForProcess (fun _ => "running") 5 1 = Except.ok ((fun _ : Nat => "running") k)) ∧
    ((∀ i, i ≤ ceilDiv 5 1 → isInProgress ((fun _ : Nat => "running") i) = true) →
      waitForProcess (fun _ => "running") 5 1 =
        Except.error (timeoutMessage 5 ((fun _ : Nat => "running") (ceilDiv 5 1)) (ceilDiv 5 1)) ∧
      ContainsSub (timeoutMessage 5 ((fun _ : Nat => "running") (ceilDiv 5 1)) (ceilDiv 5 1))
        ("did not complete within " ++ toString 5 ++ "ms") ∧
      ContainsSub (timeoutMessage 5 ((fun _ : Nat => "running") (ceilDiv 5 1)) (ceilDiv 5 1))
        ((fun _ : Nat => "running") (ceilDiv 5 1)) ∧
      ContainsSub (timeoutMessage 5 ((fun _ : Nat => "running") (ceilDiv 5 1)) (ceilDiv 5 1))
        (toString (ceilDiv 5 1))) ∧
    (ceilDiv 5 1 = 5 ∧
      (waitForProcessRun (fun _ => "running") 5 1).attempts = 5 ∧
      waitForProcess (fun _ => "running") 5 1 =
        Except.error "Process did not complete within 5ms (status: running, attempts: 5)")) :=
  ⟨by decide, C2_waitForProcess_timeout_semantics (fun _ => "running") 5 1 (by decide)⟩

/-- C9: on every poll iteration `waitForProcess` compares a freshly obtained
status: the sequence of compared values is exactly query 0, query 1, …,
query `attempts` of the live status source, so the j-th compared value is the
j-th fresh query, and a process whose live status turns terminal at query
`k` within the poll budget is observed as terminal with that status
returned. -/
theorem C9_waitForProcess_requeries_live_status (statusAt : Nat → String)
    (timeoutMs pollIntervalMs : Nat) (hp : 1 ≤ pollIntervalMs) :
    ((waitForProcessRun statusAt timeoutMs pollIntervalMs).queried =
      statusSeq statusAt 0
        ((waitForProcessRun statusAt timeoutMs pollIntervalMs).attempts + 1)) ∧
    (∀ j, j ≤ (waitForProcessRun statusAt timeoutMs pollIntervalMs).attempts →
      (waitForProcessRun statusAt timeoutMs pollIntervalMs).queried[j]? =
        some (statusAt j)) ∧
    (∀ k, k ≤ ceilDiv timeoutMs pollIntervalMs →
      (∀ i, i < k → isInProgress (statusAt i) = true) →
      isInProgress (statusAt k) = false →
      waitForProcess statusAt timeoutMs pollIntervalMs = Except.ok (statusAt k)) := by
  have htrace : (waitForProcessRun statusAt timeoutMs pollIntervalMs).queried =
      statusSeq statusAt 0
        ((waitForProcessRun statusAt timeoutMs pollIntervalMs).attempts + 1) := by
    have h := wfpGo_queried statusAt (ceilDiv timeoutMs pollIntervalMs) 0 [statusAt 0]
    simp only [waitForProcessRun] at *
    rw [h]
    have hsub : (wfpGo statusAt (ceilDiv timeoutMs pollIntervalMs) 0 (statusAt 0)
        [statusAt 0]).attempts - 0 =
        (wfpGo statusAt (ceilDiv timeoutMs pollIntervalMs) 0 (statusAt 0)
          [statusAt 0]).attempts := by omega
    rw [hsub]
    simp [statusSeq]
  refine ⟨htrace, ?_, ?_⟩
  · intro j hj
    rw [htrace]
    have := statusSeq_getElem statusAt
      ((waitForProcessRun statusAt timeoutMs pollIntervalMs).attempts + 1) 0 j (by omega)
    simpa using this
  · intro k hk hmin hterm
    have hrun := wfpGo_reach statusAt (ceilDiv timeoutMs pollIntervalMs) 0 [statusAt 0] k
      (Nat.zero_le k) (by omega) (fun i _ hi2 => hmin i hi2) hterm
    simp only [waitForProcess, waitForProcessRun, hrun, hterm]
    simp

/-- Status source used to witness C9: in progress for two queries, then
terminal. -/
def c9ExampleStatus : Nat → String := fun i => if i < 2 then "running" else "completed"

/-- Witness for C9 at a concrete status sequence. -/
theorem C9_witness :
    1 ≤ 1 ∧
    (((waitForProcessRun c9ExampleStatus 25 1).queried =
      statusSeq c9ExampleStatus 0 ((waitForProcessRun c9ExampleStatus 25 1).attempts + 1)) ∧
    (∀ j, j ≤ (waitForProcessRun c9ExampleStatus 25 1).attempts →
      (waitForProcessRun c9ExampleStatus 25 1).queried[j]? = some (c9ExampleStatus j)) ∧
    (∀ k, k ≤ ceilDiv 25 1 →
      (∀ i, i < k → isInProgress (c9ExampleStatus i) = true) →
      isInProgress (c9ExampleStatus k) = false →
      waitForProcess c9ExampleStatus 25 1 = Except.ok (c9ExampleStatus k))) :=
  ⟨by decide, C9_waitForProcess_requeries_live_status c9ExampleStatus 25 1 (by decide)⟩

theorem c9ExampleStatus_run_evaluates :
    (waitForProcessRun c9ExampleStatus 25 1).final = "completed" ∧
      (waitForProcessRun c9ExampleStatus 25 1).attempts = 2 :=
  ⟨rfl, rfl⟩

/-! ## CLI outcome evaluation (src/sandbox-alarm.ts lines 89-139)

A finished CLI process is its status snapshot, its optional exit code
(`none` models both `undefined` and `null`), the optional fresh status a
`getStatus()` call would return (`none` when the method is absent), and the
optional stdout/stderr logs. -/

structure CliProc where
  status : String
  exitCode : Option Int
  statusQuery : Option String
  stdoutLog : Option String
  stderrLog : Option String

/-- The status `evaluateCliOutcome` uses: the re-queried one when
`getStatus` exists, the snapshot field otherwise. -/
def statusOf (proc : CliProc) : String := proc.statusQuery.getD proc.status

/-- The combined, case-folded output `stdout + "\n" + stderr`. -/
def combinedOutput (proc : CliProc) : String :=
  jsToLower ((proc.stdoutLog.getD "") ++ "\n" ++ (proc.stderrLog.getD ""))

structure CliOutcome where
  success : Bool
  status : String
  stdout : String
  stderr : String
  error : Option String

/-- Model of `formatCliFailureMessage` (src/sandbox-alarm.ts lines 89-106):
trimmed stderr, else trimmed stdout, else a synthesized message. -/
def formatCliFailureMessage (status : String) (exitCode : Option Int)
    (stdout stderr : String) : String :=
  if jsTrim stderr ≠ "" then jsTrim stderr
  else if jsTrim stdout ≠ "" then jsTrim stdout
  else
    match exitCode with
    | some c => "Command failed (status=" ++ status ++ ", exitCode=" ++ toString c ++ ")"
    | none => "Command failed (status=" ++ status ++ ")"

/-- Model of `evaluateCliOutcome` (src/sandbox-alarm.ts lines 108-139). -/
def evaluateCliOutcome (proc : CliProc) (successKeywords : List String) : CliOutcome :=
  let stdout := proc.stdoutLog.getD ""
  let stderr := proc.stderrLog.getD ""
  let status := statusOf proc
  let combined := jsToLower (stdout ++ "\n" ++ stderr)
  let hasKeyword := successKeywords.any fun keyword => jsIncludes combined (jsToLower keyword)
  let completedWithoutExitCode := status == "completed" && proc.exitCode.isNone
  let success := proc.exitCode == some 0 || completedWithoutExitCode || hasKeyword
  ⟨success, status, stdout, stderr,
    if success then none
    else some (formatCliFailureMessage status proc.exitCode stdout stderr)⟩

/-- C4: `evaluateCliOutcome` declares success exactly when the exit code is 0,
or the re-queried status is "completed" with an absent exit code, or the
combined case-folded output contains some configured keyword (case-folded). -/
theorem C4_evaluateCliOutcome_success_iff (proc : CliProc) (successKeywords : List String) :
    (evaluateCliOutcome proc successKeywords).success = true ↔
      (proc.exitCode = some 0 ∨
        (statusOf proc = "completed" ∧ proc.exitCode = none) ∨
        ∃ keyword ∈ successKeywords,
          jsIncludes (combinedOutput proc) (jsToLower keyword) = true) := by
  simp [evaluateCliOutcome, combinedOutput, Bool.or_eq_true, Bool.and_eq_true,
    List.any_eq_true, Option.isNone_iff_eq_none]
  tauto

theorem evaluateCliOutcome_example_evaluates :
    (evaluateCliOutcome ⟨"completed", none, some "completed", some "Device APPROVED ok", none⟩
      ["approved"]).success = true ∧
    (evaluateCliOutcome ⟨"failed", some 1, none, none, some " boom "⟩ ["approved"]).success
      = false ∧
    (evaluateCliOutcome ⟨"failed", some 1, none, none, some " boom "⟩ ["approved"]).error
      = some "boom" :=
  ⟨rfl, rfl, rfl⟩

/-! ## The `Sandbox.alarm` override (src/sandbox-alarm.ts lines 13-40) -/

inductive AlarmEvent where
  | loggedAlarmError (message : String)
  | scheduledRetry (delayMs : Nat)
  | loggedScheduleError (message : String)
deriving DecidableEq, Repr

/-- Model of `serializeAlarmError`: the message of an `Error`, the string
form of anything else. -/
def serializeAlarmError : JsError → String
  | JsError.errObj m => m
  | JsError.nonError v => v

/-- Model of the overridden `Sandbox.alarm`: run the underlying alarm
handler; on failure log the error and try to schedule a retry alarm 1000ms
out, logging (and swallowing) a scheduling failure too.  The first component
is what `alarm` itself returns or throws; the second is the trace of logged
errors and scheduled retries. -/
def Sandbox_alarm (superAlarm : Except JsError Unit)
    (scheduleNextAlarm : Nat → Except JsError Unit) :
    Except JsError Unit × List AlarmEvent :=
  match superAlarm with
  | Except.ok _ => (Except.ok (), [])
  | Except.error e =>
    match scheduleNextAlarm 1000 with
    | Except.ok _ =>
      (Except.ok (),
        [AlarmEvent.loggedAlarmError (serializeAlarmError e),
          AlarmEvent.scheduledRetry 1000])
    | Except.error se =>
      (Except.ok (),
        [AlarmEvent.loggedAlarmError (serializeAlarmError e),
          AlarmEvent.loggedScheduleError (serializeAlarmError se)])

/-- C10: the overridden `Sandbox.alarm` always resolves successfully — it
never propagates an exception; when the underlying handler succeeds nothing
is logged or scheduled, and when it throws, the error is logged and a retry
alarm is scheduled 1000ms later, a scheduling failure being logged and
swallowed as well. -/
theorem C10_alarm_never_propagates :
    (∀ superAlarm scheduleNextAlarm,
      (Sandbox_alarm superAlarm scheduleNextAlarm).1 = Except.ok ()) ∧
    (∀ scheduleNextAlarm, (Sandbox_alarm (Except.ok ()) scheduleNextAlarm).2 = []) ∧
    (∀ e scheduleNextAlarm,
      (Sandbox_alarm (Except.error e) scheduleNextAlarm).2 =
        AlarmEvent.loggedAlarmError (serializeAlarmError e) ::
          (match scheduleNextAlarm 1000 with
            | Except.ok _ => [AlarmEvent.scheduledRetry 1000]
            | Except.error se => [AlarmEvent.loggedScheduleError (serializeAlarmError se)])) := by
  refine ⟨?_, ?_, ?_⟩
  · intro s f
    cases s with
    | ok u => cases u; rfl
    | error e => cases hf : f 1000 <;> simp [Sandbox_alarm, hf]
  · intro f; rfl
  · intro e f
    cases hf : f 1000 <;> simp [Sandbox_alarm, hf]

/-! ## BackupSyncEngine: boot-time restore (startup script)

`restore_from_r2` is a function of the environment it observes: whether R2
credentials are configured, what the local filesystem contains, whether the
boot-time force-full-restore marker `/tmp/.force-r2-restore` is present, and
what each remote probe / copy would report.  It returns the restore status
record that gets written and the list of remote operations (rclone probes
and copies) the run issues, in order. -/

inductive ProbeResult where
  | present
  | missing
  | probeError (detail : String)
deriving DecidableEq, Repr

inductive RemoteOp where
  | probeOpenclawConfig
  | probeLegacyConfig
  | probeWorkspace
  | probeSkills
  | copyOpenclawConfig
  | copyLegacyConfig
  | copyWorkspace
  | copySkills
deriving DecidableEq, Repr

structure RestoreEnv where
  r2Configured : Bool
  configFilePresent : Bool
  workspaceHasMeaningfulFile : Bool
  skillsHasFile : Bool
  forceMarkerPresent : Bool
  openclawProbe : ProbeResult
  legacyProbe : ProbeResult
  workspaceProbe : ProbeResult
  skillsProbe : ProbeResult
  configCopyOk : Bool
  legacyCopyOk : Bool
  workspaceCopyOk : Bool
  skillsCopyOk : Bool
deriving Repr

structure RestoreOutcome where
  state : String
  detail : Option String
  remoteOps : List RemoteOp
deriving DecidableEq, Repr

/-- Model of `local_state_exists` (startup script lines 148-162): the config
file exists, or the workspace tree holds a file outside `node_modules`/`.git`,
or the skills tree holds a file.  Note that the force-restore marker is not
consulted anywhere in this check. -/
def local_state_exists (env : RestoreEnv) : Bool :=
  env.configFilePresent || env.workspaceHasMeaningfulFile || env.skillsHasFile

/-- Skills stage of `restore_from_r2` (startup script lines 283-297), given
whether any earlier prefix was restored and the operations issued so far. -/
def restoreSkillsStage (env : RestoreEnv) (restoredAny : Bool) (ops : List RemoteOp) :
    RestoreOutcome :=
  match env.skillsProbe with
  | ProbeResult.present =>
    if env.skillsCopyOk then
      ⟨"restored", some "R2 backup restored into empty local state",
        ops ++ [RemoteOp.probeSkills, RemoteOp.copySkills]⟩
    else
      ⟨"failed", some "Restore failed for Skills",
        ops ++ [RemoteOp.probeSkills, RemoteOp.copySkills]⟩
  | ProbeResult.missing =>
    if restoredAny then
      ⟨"restored", some "R2 backup restored into empty local state",
        ops ++ [RemoteOp.probeSkills]⟩
    else ⟨"fresh", some "No R2 backup found", ops ++ [RemoteOp.probeSkills]⟩
  | ProbeResult.probeError d => ⟨"failed", some d, ops ++ [RemoteOp.probeSkills]⟩

/-- Workspace stage of `restore_from_r2` (startup script lines 267-281). -/
def restoreWorkspaceStage (env : RestoreEnv) (restoredAny : Bool) (ops : List RemoteOp) :
    RestoreOutcome :=
  match env.workspaceProbe with
  | ProbeResult.present =>
    if env.workspaceCopyOk then
      restoreSkillsStage env true (ops ++ [RemoteOp.probeWorkspace, RemoteOp.copyWorkspace])
    else
      ⟨"failed", some "Restore failed for Workspace",
        ops ++ [RemoteOp.probeWorkspace, RemoteOp.copyWorkspace]⟩
  | ProbeResult.missing =>
    restoreSkillsStage env restoredAny (ops ++ [RemoteOp.probeWorkspace])
  | ProbeResult.probeError d => ⟨"failed", some d, ops ++ [RemoteOp.probeWorkspace]⟩

/-- Model of `restore_from_r2` (startup script lines 215-306): credentials
short-circuit, local-state skip, then the probe/copy sequence over the
primary config prefix, the legacy config prefix (only when the primary is
missing), the workspace prefix and the skills prefix. -/
def restore_from_r2 (env : RestoreEnv) : RestoreOutcome :=
  if env.r2Configured = false then
    ⟨"not_configured", some "R2 credentials not configured", []⟩
  else if local_state_exists env then
    ⟨"skipped_local", some "Local state exists, skipped remote restore", []⟩
  else
    match env.openclawProbe with
    | ProbeResult.present =>
      if env.configCopyOk then
        restoreWorkspaceStage env true [RemoteOp.probeOpenclawConfig, RemoteOp.copyOpenclawConfig]
      else
        ⟨"failed", some "Restore failed for Config",
          [RemoteOp.probeOpenclawConfig, RemoteOp.copyOpenclawConfig]⟩
    | ProbeResult.missing =>
      match env.legacyProbe with
      | ProbeResult.present =>
        if env.legacyCopyOk then
          restoreWorkspaceStage env true
            [RemoteOp.probeOpenclawConfig, RemoteOp.probeLegacyConfig, RemoteOp.copyLegacyConfig]
        else
          ⟨"failed", some "Restore failed for Legacy config",
            [RemoteOp.probeOpenclawConfig, RemoteOp.probeLegacyConfig,
              RemoteOp.copyLegacyConfig]⟩
      | ProbeResult.missing =>
        restoreWorkspaceStage env false
          [RemoteOp.probeOpenclawConfig, RemoteOp.probeLegacyConfig]
      | ProbeResult.probeError d =>
        ⟨"failed", some d, [RemoteOp.probeOpenclawConfig, RemoteOp.probeLegacyConfig]⟩
    | ProbeResult.probeError d => ⟨"failed", some d, [RemoteOp.probeOpenclawConfig]⟩

/-- Environment used for C3: credentials configured, the force-full-restore
marker `/tmp/.force-r2-restore` present, the local config file present, and a
complete remote backup available. -/
def c3ForcedEnv : RestoreEnv :=
  ⟨true, true, false, false, true,
    ProbeResult.present, ProbeResult.missing, ProbeResult.present, ProbeResult.present,
    true, true, true, true⟩

/-- C3: the restore phase never consults the force-full-restore marker — with
the marker present and local state present it still records `skipped_local`
and issues zero remote operations, instead of treating local state as absent
and pulling from remote; the run of `restore_from_r2` is the same whatever
the marker value is. -/
theorem C3_force_restore_marker_ignored :
    c3ForcedEnv.forceMarkerPresent = true ∧
    c3ForcedEnv.r2Configured = true ∧
    (restore_from_r2 c3ForcedEnv).state = "skipped_local" ∧
    (restore_from_r2 c3ForcedEnv).remoteOps = [] ∧
    (∀ marker : Bool,
      restore_from_r2
        ⟨true, true, false, false, marker,
          ProbeResult.present, ProbeResult.missing, ProbeResult.present, ProbeResult.present,
          true, true, true, true⟩ =
      restore_from_r2 c3ForcedEnv) :=
  ⟨rfl, rfl, rfl, rfl, fun _ => rfl⟩

/-- Environment refuting C8 as stated: local state is present but the R2
credentials are absent. -/
def c8CounterEnv : RestoreEnv :=
  ⟨false, true, false, false, false,
    ProbeResult.missing, ProbeResult.missing, ProbeResult.missing, ProbeResult.missing,
    true, true, true, true⟩

/-- C8 counterexample: when remote-storage credentials are not configured,
an invocation with local state present records `not_configured`, not
`skipped_local`, so the unconditional claim fails at this input. -/
theorem C8_counterexample :
    local_state_exists c8CounterEnv = true ∧
    (restore_from_r2 c8CounterEnv).state = "not_configured" ∧
    (restore_from_r2 c8CounterEnv).state ≠ "skipped_local" :=
  ⟨rfl, rfl, by decide⟩

/-- C8 (amended): for every invocation of the restore phase with remote
storage credentials configured in which local state is already present (the
primary config file exists, or a tracked workspace/extensions tree contains a
non-excluded file), the recorded RestoreStatus is `skipped_local` and zero
remote probe or copy calls are issued; this holds of every such invocation,
first or subsequent, since the skip branch also leaves local state in place. -/
theorem C8_restore_idempotent_under_local_state (env : RestoreEnv)
    (hconf : env.r2Configured = true) (hlocal : local_state_exists env = true) :
    (restore_from_r2 env).state = "skipped_local" ∧
    (restore_from_r2 env).remoteOps = [] ∧
    restore_from_r2 env =
      ⟨"skipped_local", some "Local state exists, skipped remote restore", []⟩ := by
  have h : restore_from_r2 env =
      ⟨"skipped_local", some "Local state exists, skipped remote restore", []⟩ := by
    simp [restore_from_r2, hconf, hlocal]
  exact ⟨by rw [h], by rw [h], h⟩

/-- Environment used to witness the amended C8. -/
def c8WitnessEnv : RestoreEnv :=
  ⟨true, true, false, false, false,
    ProbeResult.missing, ProbeResult.missing, ProbeResult.missing, ProbeResult.missing,
    true, true, true, true⟩

/-- Witness for the amended C8 at a concrete environment. -/
theorem C8_witness :
    (c8WitnessEnv.r2Configured = true ∧ local_state_exists c8WitnessEnv = true) ∧
    ((restore_from_r2 c8WitnessEnv).state = "skipped_local" ∧
     (restore_from_r2 c8WitnessEnv).remoteOps = [] ∧
     restore_from_r2 c8WitnessEnv =
       ⟨"skipped_local", some "Local state exists, skipped remote restore", []⟩) :=
  ⟨⟨rfl, rfl⟩, C8_restore_idempotent_under_local_state c8WitnessEnv rfl rfl⟩

theorem restore_scenario_evaluates :
    (restore_from_r2
      ⟨true, false, false, false, false,
        ProbeResult.present, ProbeResult.missing, ProbeResult.missing, ProbeResult.missing,
        true, true, true, true⟩).state = "restored" ∧
    (restore_from_r2
      ⟨true, false, false, false, false,
        ProbeResult.missing, ProbeResult.missing, ProbeResult.missing, ProbeResult.missing,
        true, true, true, true⟩).state = "fresh" :=
  ⟨rfl, rfl⟩

/-! ## BackupSyncEngine: the sync step `sync_once` (startup script lines 600-660)

`sync_once` is a function of the triggering reason, the environment (whether
R2 is configured, which tracked directories exist, whether each rclone sync
would succeed, the diagnostic lines a failure would leave, and the current
time) and the persistent state (whether the advisory lock directory is held
by an in-flight sync, the last-sync timestamp file, the last-sync-error file,
the change watermark marker mtime and the sync log).  It returns the shell
status, the updated state and the list of rclone storage operations issued. -/

inductive StorageOp where
  | rcloneSyncConfig
  | rcloneSyncWorkspace
  | rcloneSyncSkills
deriving DecidableEq, Repr

structure SyncEnv where
  r2Configured : Bool
  workspaceDirPresent : Bool
  skillsDirPresent : Bool
  configSyncOk : Bool
  workspaceSyncOk : Bool
  skillsSyncOk : Bool
  errorLines : List String
  now : String
  nowEpoch : Nat

structure SyncState where
  lockHeld : Bool
  lastSyncFile : Option String
  lastSyncErrorFile : Option String
  syncMarkerEpoch : Nat
  syncLog : List String
deriving Repr

structure SyncResult where
  ok : Bool
  state : SyncState
  storageOps : List StorageOp

/-- The last `n` lines of a diagnostic stream (`tail -n n`). -/
def lastLines (n : Nat) (lines : List String) : List String :=
  lines.drop (lines.length - n)

/-- Join lines with each newline turned into a space (`tr` in the script). -/
def joinAsSpaces (lines : List String) : String :=
  lines.foldl (fun acc l => acc ++ l ++ " ") ""

/-- The truncated diagnostic tail a failed sync records: the last 50 error
lines flattened, with a fallback when empty. -/
def syncErrorTail (lines : List String) : String :=
  let t := joinAsSpaces (lastLines 50 lines)
  if t = "" then "Unknown sync failure" else t

/-- Model of `sync_once`:

  * R2 unconfigured: immediate success, nothing touched, no storage I/O;
  * lock busy (`mkdir` of the lock directory fails): log the skip with the
    triggering reason, touch nothing else, no storage I/O, return success;
  * otherwise run the three `rclone sync` operations (workspace and skills
    only when their directories exist); on overall success write the
    timestamp file, remove the error file, touch the watermark marker; on
    failure write the error file (reason plus truncated diagnostic tail) and
    leave timestamp and marker alone; either way release the lock. -/
def sync_once (reason : String) (env : SyncEnv) (st : SyncState) : SyncResult :=
  if env.r2Configured = false then ⟨true, st, []⟩
  else if st.lockHeld then
    ⟨true,
      ⟨st.lockHeld, st.lastSyncFile, st.lastSyncErrorFile, st.syncMarkerEpoch,
        st.syncLog ++ ["[sync] Skip (lock busy) reason=" ++ reason ++ " at " ++ env.now]⟩,
      []⟩
  else
    let ops := StorageOp.rcloneSyncConfig ::
      ((if env.workspaceDirPresent then [StorageOp.rcloneSyncWorkspace] else []) ++
        (if env.skillsDirPresent then [StorageOp.rcloneSyncSkills] else []))
    let syncOk := env.configSyncOk &&
      (!env.workspaceDirPresent || env.workspaceSyncOk) &&
      (!env.skillsDirPresent || env.skillsSyncOk)
    let startLog := "[sync] Start reason=" ++ reason ++ " at " ++ env.now
    if syncOk then
      ⟨true,
        ⟨false, some env.now, none, env.nowEpoch,
          st.syncLog ++ [startLog, "[sync] Complete reason=" ++ reason ++ " at " ++ env.now]⟩,
        ops⟩
    else
      ⟨false,
        ⟨false, st.lastSyncFile,
          some (env.now ++ " reason=" ++ reason ++ " " ++ syncErrorTail env.errorLines),
          st.syncMarkerEpoch,
          st.syncLog ++ [startLog, "[sync] Failed reason=" ++ reason ++ " at " ++ env.now]⟩,
        ops⟩

/-- C5: with R2 configured and the lock free, a successful sync persists the
new last-sync timestamp, clears the recorded last-sync error and advances the
change watermark to the current time; a failed sync records a last-sync error
made of the reason plus the truncated diagnostic tail while leaving both the
timestamp and the watermark unchanged; hence the watermark moves only when
the sync succeeded, and never backwards. -/
theorem C5_sync_record_mutation (reason : String) (env : SyncEnv) (st : SyncState)
    (hconf : env.r2Configured = true) (hfree : st.lockHeld = false)
    (hmono : st.syncMarkerEpoch ≤ env.nowEpoch) :
    ((sync_once reason env st).ok = true →
      (sync_once reason env st).state.lastSyncFile = some env.now ∧
      (sync_once reason env st).state.lastSyncErrorFile = none ∧
      (sync_once reason env st).state.syncMarkerEpoch = env.nowEpoch ∧
      st.syncMarkerEpoch ≤ (sync_once reason env st).state.syncMarkerEpoch) ∧
    ((sync_once reason env st).ok = false →
      (sync_once reason env st).state.lastSyncErrorFile =
        some (env.now ++ " reason=" ++ reason ++ " " ++ syncErrorTail env.errorLines) ∧
      (sync_once reason env st).state.lastSyncFile = st.lastSyncFile ∧
      (sync_once reason env st).state.syncMarkerEpoch = st.syncMarkerEpoch) ∧
    ((sync_once reason env st).state.syncMarkerEpoch ≠ st.syncMarkerEpoch →
      (sync_once reason env st).ok = true) := by
  cases hok : (env.configSyncOk &&
      (!env.workspaceDirPresent || env.workspaceSyncOk) &&
      (!env.skillsDirPresent || env.skillsSyncOk)) with
  | true =>
    refine ⟨?_, ?_, ?_⟩ <;> intro h <;>
      simp only [sync_once, hconf, hfree, hok] at h ⊢ <;> simp_all
  | false =>
    refine ⟨?_, ?_, ?_⟩ <;> intro h <;>
      simp only [sync_once, hconf, hfree, hok] at h ⊢ <;> simp_all

/-- Concrete environment for the C5 witness: everything succeeds. -/
def c5Env : SyncEnv := ⟨true, true, true, true, true, true, [], "T1", 100⟩

/-- Concrete prior state for the C5 and C6 witnesses. -/
def c5State : SyncState := ⟨false, some "T0", some "old error", 90, []⟩

/-- Witness for C5 at a concrete environment and state. -/
theorem C5_witness :
    ((c5Env.r2Configured = true ∧ c5State.lockHeld = false) ∧
      c5State.syncMarkerEpoch ≤ c5Env.nowEpoch) ∧
    (((sync_once "periodic-5m" c5Env c5State).ok = true →
      (sync_once "periodic-5m" c5Env c5State).state.lastSyncFile = some c5Env.now ∧
      (sync_once "periodic-5m" c5Env c5State).state.lastSyncErrorFile = none ∧
      (sync_once "periodic-5m" c5Env c5State).state.syncMarkerEpoch = c5Env.nowEpoch ∧
      c5State.syncMarkerEpoch ≤ (sync_once "periodic-5m" c5Env c5State).state.syncMarkerEpoch) ∧
    ((sync_once "periodic-5m" c5Env c5State).ok = false →
      (sync_once "periodic-5m" c5Env c5State).state.lastSyncErrorFile =
        some (c5Env.now ++ " reason=" ++ "periodic-5m" ++ " " ++ syncErrorTail c5Env.errorLines) ∧
      (sync_once "periodic-5m" c5Env c5State).state.lastSyncFile = c5State.lastSyncFile ∧
      (sync_once "periodic-5m" c5Env c5State).state.syncMarkerEpoch = c5State.syncMarkerEpoch) ∧
    ((sync_once "periodic-5m" c5Env c5State).state.syncMarkerEpoch ≠ c5State.syncMarkerEpoch →
      (sync_once "periodic-5m" c5Env c5State).ok = true)) :=
  ⟨⟨⟨rfl, rfl⟩, by decide⟩, C5_sync_record_mutation "periodic-5m" c5Env c5State rfl rfl (by decide)⟩

/-- C6: with R2 configured, a sync triggered while the advisory lock is
already held by an in-flight sync performs zero storage operations, appends
exactly one skip entry (carrying the triggering reason) to the sync log,
leaves the last-sync timestamp, the last-sync error and the change watermark
unchanged, and returns without an error — it neither blocks nor queues; the
in-flight holder is thus the only invocation doing storage I/O. -/
theorem C6_sync_lock_mutual_exclusion (reason : String) (env : SyncEnv) (st : SyncState)
    (hconf : env.r2Configured = true) (hheld : st.lockHeld = true) :
    (sync_once reason env st).storageOps = [] ∧
    (sync_once reason env st).ok = true ∧
    (sync_once reason env st).state.lastSyncFile = st.lastSyncFile ∧
    (sync_once reason env st).state.lastSyncErrorFile = st.lastSyncErrorFile ∧
    (sync_once reason env st).state.syncMarkerEpoch = st.syncMarkerEpoch ∧
    (sync_once reason env st).state.syncLog =
      st.syncLog ++ ["[sync] Skip (lock busy) reason=" ++ reason ++ " at " ++ env.now] ∧
    ContainsSub ("[sync] Skip (lock busy) reason=" ++ reason ++ " at " ++ env.now) reason := by
  refine ⟨?_, ?_, ?_, ?_, ?_, ?_, ?_⟩ <;>
    first
    | simp [sync_once, hconf, hheld]
    | exact ⟨"[sync] Skip (lock busy) reason=", " at " ++ env.now, by
        apply String.ext
        simp [String.data_append, List.append_assoc]⟩

/-- Concrete held-lock state for the C6 witness. -/
def c6State : SyncState := ⟨true, some "T0", none, 90, []⟩

/-- Witness for C6 at a concrete environment and held lock. -/
theorem C6_witness :
    (c5Env.r2Configured = true ∧ c6State.lockHeld = true) ∧
    ((sync_once "change-detected" c5Env c6State).storageOps = [] ∧
    (sync_once "change-detected" c5Env c6State).ok = true ∧
    (sync_once "change-detected" c5Env c6State).state.lastSyncFile = c6State.lastSyncFile ∧
    (sync_once "change-detected" c5Env c6State).state.lastSyncErrorFile =
      c6State.lastSyncErrorFile ∧
    (sync_once "change-detected" c5Env c6State).state.syncMarkerEpoch =
      c6State.syncMarkerEpoch ∧
    (sync_once "change-detected" c5Env c6State).state.syncLog =
      c6State.syncLog ++
        ["[sync] Skip (lock busy) reason=" ++ "change-detected" ++ " at " ++ c5Env.now] ∧
    ContainsSub ("[sync] Skip (lock busy) reason=" ++ "change-detected" ++ " at " ++ c5Env.now)
      "change-detected") :=
  ⟨⟨rfl, rfl⟩, C6_sync_lock_mutual_exclusion "change-detected" c5Env c6State rfl rfl⟩

/-! ## BackupSyncEngine: shutdown drain (startup script lines 722-762)

The background shutdown sync is abstracted by `alive w`, which says whether
the sync process is still running after `w` seconds; a sync that would run
indefinitely is `fun _ => true`.  `drainGo` is the wait loop of
`run_shutdown_sync_with_timeout`: check liveness; if the sync has finished,
return its outcome; if the 45-second budget is exhausted, kill the sync and
report a timeout; otherwise sleep one second and loop.  The remaining fuel
carries `waited >= timeout` structurally: fuel 0 means the budget is spent. -/

def drainGo (alive : Nat → Bool) : Nat → Nat → Nat × Bool
  | 0, waited => if alive waited = false then (waited, false) else (waited, true)
  | f + 1, waited =>
    if alive waited = false then (waited, false)
    else drainGo alive f (waited + 1)

/-- Model of `run_shutdown_sync_with_timeout`: the elapsed whole seconds the
drain waited, and whether it timed out (killing the sync and returning
failure) rather than seeing the sync finish. -/
def run_shutdown_sync_with_timeout (alive : Nat → Bool) : Nat × Bool :=
  drainGo alive 45 0

inductive ShutdownStep where
  | drainSync (elapsed : Nat) (timedOut : Bool)
  | stopSyncLoop
  | killGateway
deriving DecidableEq, Repr

/-- Model of `shutdown_handler`: re-entrant invocations (the `SHUTTING_DOWN`
flag already set) do nothing; the first invocation runs the bounded drain
when R2 is configured (its failure is discarded by `|| true`), then stops
the sync loop and terminates the gateway — unconditionally. -/
def shutdown_handler (shuttingDown : Bool) (r2conf : Bool) (alive : Nat → Bool) :
    List ShutdownStep :=
  if shuttingDown then []
  else
    (if r2conf then
      [ShutdownStep.drainSync (run_shutdown_sync_with_timeout alive).1
        (run_shutdown_sync_with_timeout alive).2]
    else []) ++ [ShutdownStep.stopSyncLoop, ShutdownStep.killGateway]

theorem drainGo_elapsed_le (alive : Nat → Bool) :
    ∀ fuel waited, (drainGo alive fuel waited).1 ≤ waited + fuel := by
  intro fuel
  induction fuel with
  | zero =>
    intro waited
    by_cases h : alive waited = false <;> simp [drainGo, h]
  | succ f ih =>
    intro waited
    by_cases h : alive waited = false
    · simp [drainGo, h]
    · simp only [drainGo, if_neg h]
      have := ih (waited + 1)
      omega

/-- C7: the shutdown drain is bounded — for every sync duration it waits at
most the configured 45 seconds; a shutdown sync that never completes is
forcibly cancelled exactly at the 45-second bound with a timeout outcome;
and the first `shutdown_handler` invocation always proceeds past the drain to
stop the sync loop and terminate the gateway, whatever the drain outcome. -/
theorem C7_shutdown_drain_bounded :
    (∀ alive : Nat → Bool, (run_shutdown_sync_with_timeout alive).1 ≤ 45) ∧
    (run_shutdown_sync_with_timeout (fun _ => true) = (45, true)) ∧
    (∀ alive : Nat → Bool, shutdown_handler false true alive =
      [ShutdownStep.drainSync (run_shutdown_sync_with_timeout alive).1
          (run_shutdown_sync_with_timeout alive).2,
        ShutdownStep.stopSyncLoop, ShutdownStep.killGateway]) ∧
    (∀ r2conf alive, shutdown_handler true r2conf alive = []) := by
  refine ⟨?_, ?_, ?_, ?_⟩
  · intro alive
    have := drainGo_elapsed_le alive 45 0
    simpa [run_shutdown_sync_with_timeout] using this
  · rfl
  · intro alive; rfl
  · intro r2conf alive; rfl

theorem drain_finishing_sync_evaluates :
    run_shutdown_sync_with_timeout (fun w => decide (w < 3)) = (3, false) ∧
      run_shutdown_sync_with_timeout (fun w => decide (w < 100)) = (45, true) :=
  ⟨rfl, rfl⟩

end Moltworker
